import Mathlib

/-
Shallow embedding of src/python_tools/script_versions/ERDDAP_Access.py.

The repository is a single function, get_erddap_data.  It builds an
erddapy client object, configures it (server, protocol, response
encoding, dataset id, constraints, variables), branches on the protocol
string, and runs a bounded retry loop around the fetch call, sleeping a
fixed 10 seconds after every failed attempt.  The external erddapy
library (griddap_initialize and the two fetch methods to_xarray and
to_pandas) is out of scope for the repository, so it is modelled here as
an abstract environment, Env: griddap_initialize is an arbitrary
transformation of the client state, and each fetch method is an
arbitrary per-attempt outcome (some data on success, none when the call
raises).  Every observable action of the wrapper (client construction
and configuration, fetch attempts, prints, sleeps) is recorded in an
event trace, and the outcome distinguishes a normal return from a
propagated Python exception (the read of the never-assigned local
erddap_data when the loop body never ran).
-/

namespace ErddapAccess

/-- Opaque stand-in for a successfully fetched dataset (an xarray
dataset or a pandas dataframe); the wrapper never inspects it. -/
structure XData where
  val : Nat
deriving DecidableEq

/-- State of the erddapy client object e, as far as the wrapper touches
it: constructor arguments, the dataset id assigned right after
construction, and the constraints and variables fields (the latter
named varNames here because variables is a reserved word in Lean). -/
structure Client where
  server : String
  protocol : String
  response : String
  dataset_id : String
  constraints : List (String × String)
  varNames : List String
deriving DecidableEq

/-- Observable actions of one call of get_erddap_data, in order. -/
inductive Event where
  | constructClient (server protocol response : String)
  | setDatasetId (d : String)
  | gridInit
  | updateConstraints (c : List (String × String))
  | replaceConstraints (c : List (String × String))
  | setVariables (v : List String)
  | fetchAttempt (i : Nat)
  | printConnError
  | printRetryMsg (n : Int)
  | sleep (secs : Nat)
  | printInvalidProtocol (p : String)
  | printFinalError
deriving DecidableEq

/-- How one call ends: a normal Python return, or an exception
propagating to the caller. -/
inductive RunOutcome where
  | ret (d : Option XData)
  | raise (exn : String)
deriving DecidableEq

/-- The external erddapy library, abstracted: the effect of
griddap_initialize on the client state, and the outcome of the i-th
fetch attempt (to_xarray for griddap, to_pandas for tabledap) on a given
configured client: some d means the call returned d, none means it
raised an exception. -/
structure Env where
  gridInit : Client → Client
  fetchGrid : Client → Nat → Option XData
  fetchTable : Client → Nat → Option XData

/-- Python dict assignment d[k] = v on an association list: replace in
place when the key is present, append otherwise. -/
def dictInsert (d : List (String × String)) (k v : String) :
    List (String × String) :=
  if d.any (fun p => p.1 = k) then
    d.map (fun p => if p.1 = k then (k, v) else p)
  else d ++ [(k, v)]

/-- Python dict.update(c) on d: entries of c are written into d left to
right, overwriting existing keys and appending new ones. -/
def dictUpdate (d c : List (String × String)) : List (String × String) :=
  c.foldl (fun acc p => dictInsert acc p.1 p.2) d

/-- Python dict lookup, with the last write winning (as a dict built
from this association list would behave). -/
def dictLookup (d : List (String × String)) (k : String) : Option String :=
  match d with
  | [] => none
  | p :: rest =>
    match dictLookup rest k with
    | some v => some v
    | none => if p.1 = k then some p.2 else none

/-- The client right after construction and the dataset-id assignment:
ERDDAP(server=erddap_url, protocol=data_protocol, response="csv");
e.dataset_id = dataset. -/
def initialClient (erddap_url dataset data_protocol : String) : Client :=
  { server := erddap_url, protocol := data_protocol, response := "csv",
    dataset_id := dataset, constraints := [], varNames := [] }

/-- The griddap branch before the loop: e.griddap_initialize(); if
constraints is not None, e.constraints.update(constraints) and a second
e.griddap_initialize(); if variables is not None, e.variables =
variables.  Returns the configured client and the configuration trace. -/
def gridConfigure (env : Env) (e : Client)
    (varNames : Option (List String))
    (constraints : Option (List (String × String))) :
    Client × List Event :=
  let e1 := env.gridInit e
  let step2 : Client × List Event :=
    match constraints with
    | some cons =>
      (env.gridInit { e1 with constraints := dictUpdate e1.constraints cons },
       [Event.updateConstraints cons, Event.gridInit])
    | none => (e1, [])
  let step3 : Client × List Event :=
    match varNames with
    | some vars => ({ step2.1 with varNames := vars },
                    step2.2 ++ [Event.setVariables vars])
    | none => step2
  (step3.1, Event.gridInit :: step3.2)

/-- The tabledap branch before the loop: if constraints is not None,
e.constraints = constraints (outright replacement, no merge); if
variables is not None, e.variables = variables. -/
def tableConfigure (e : Client)
    (varNames : Option (List String))
    (constraints : Option (List (String × String))) :
    Client × List Event :=
  let step1 : Client × List Event :=
    match constraints with
    | some cons => ({ e with constraints := cons },
                    [Event.replaceConstraints cons])
    | none => (e, [])
  match varNames with
  | some vars => ({ step1.1 with varNames := vars },
                  step1.2 ++ [Event.setVariables vars])
  | none => step1

/-- The retry loop.  download_attempt starts at 0; while download_attempt
< timeout_maxretries, one fetch is attempted: on success erddap_data is
bound to the result and download_attempt is set to timeout_maxretries
(so the loop exits); on an exception the two error lines are printed,
erddap_data is bound to None, download_attempt is incremented, the retry
line is printed and the thread sleeps 10 seconds.  erddap_data is an
Option of an Option: the outer none models the local still being
unbound. -/
def retryLoop (fetch : Nat → Option XData) (timeout_maxretries : Int)
    (download_attempt : Int) (erddap_data : Option (Option XData)) :
    Option (Option XData) × List Event :=
  if _h : download_attempt < timeout_maxretries then
    match fetch download_attempt.toNat with
    | some d => (some (some d), [Event.fetchAttempt download_attempt.toNat])
    | none =>
      let rest := retryLoop fetch timeout_maxretries (download_attempt + 1)
        (some none)
      (rest.1, Event.fetchAttempt download_attempt.toNat ::
        Event.printConnError :: Event.printRetryMsg (download_attempt + 1) ::
        Event.sleep 10 :: rest.2)
  else (erddap_data, [])
termination_by (timeout_maxretries - download_attempt).toNat
decreasing_by
  simp_wf
  omega

/-- The final lines of the function: reading erddap_data raises
UnboundLocalError when it was never assigned; otherwise, if it is None
the final diagnostic is printed; the value is returned. -/
def finishRun (erddap_data : Option (Option XData)) (evs : List Event) :
    RunOutcome × List Event :=
  match erddap_data with
  | none => (RunOutcome.raise "UnboundLocalError", evs)
  | some none => (RunOutcome.ret none, evs ++ [Event.printFinalError])
  | some (some d) => (RunOutcome.ret (some d), evs)

/-- The whole function get_erddap_data, with the source's default
arguments, returning the outcome and the full event trace. -/
def get_erddap_data (env : Env) (erddap_url : String) (dataset : String)
    (data_protocol : String := "griddap")
    (varNames : Option (List String) := none)
    (constraints : Option (List (String × String)) := none)
    (timeout_maxretries : Int := 5) : RunOutcome × List Event :=
  let e := initialClient erddap_url dataset data_protocol
  let ev0 := [Event.constructClient erddap_url data_protocol "csv",
              Event.setDatasetId dataset]
  if data_protocol = "griddap" then
    let cfg := gridConfigure env e varNames constraints
    let loop := retryLoop (env.fetchGrid cfg.1) timeout_maxretries 0 none
    finishRun loop.1 (ev0 ++ cfg.2 ++ loop.2)
  else if data_protocol = "tabledap" then
    let cfg := tableConfigure e varNames constraints
    let loop := retryLoop (env.fetchTable cfg.1) timeout_maxretries 0 none
    finishRun loop.1 (ev0 ++ cfg.2 ++ loop.2)
  else
    finishRun (some none)
      (ev0 ++ [Event.printInvalidProtocol data_protocol])

/-- The client the griddap branch passes to every to_xarray call. -/
def gridFetchClient (env : Env) (url ds : String)
    (v : Option (List String)) (c : Option (List (String × String))) :
    Client :=
  (gridConfigure env (initialClient url ds "griddap") v c).1

/-- The client the tabledap branch passes to every to_pandas call. -/
def tableFetchClient (url ds : String)
    (v : Option (List String)) (c : Option (List (String × String))) :
    Client :=
  (tableConfigure (initialClient url ds "tabledap") v c).1

/-- Trace of one failed attempt: the fetch, the two error prints
(collapsed into printConnError), the retry message with the incremented
counter, and the 10-second sleep. -/
def failBlock (i : Nat) : List Event :=
  [Event.fetchAttempt i, Event.printConnError,
   Event.printRetryMsg ((i : Int) + 1), Event.sleep 10]

/-- Trace of count consecutive failed attempts starting at index start. -/
def allFailTrace : Nat → Nat → List Event
  | _, 0 => []
  | start, c + 1 => failBlock start ++ allFailTrace (start + 1) c

/-- Whether an event is a fetch attempt. -/
def isAttemptEvent : Event → Bool
  | Event.fetchAttempt _ => true
  | _ => false

/-- Whether an event is a sleep. -/
def isSleepEvent : Event → Bool
  | Event.sleep _ => true
  | _ => false

/-- Number of fetch attempts recorded in a trace. -/
def numAttempts (t : List Event) : Nat := (t.filter isAttemptEvent).length

/-- Number of sleeps recorded in a trace. -/
def numSleeps (t : List Event) : Nat := (t.filter isSleepEvent).length

/-- Events that occur before the loop (or instead of it): construction,
configuration, and the invalid-protocol diagnostic.  No fetch attempts,
no sleeps, no final diagnostic. -/
def isSetupEvent : Event → Bool
  | Event.constructClient _ _ _ => true
  | Event.setDatasetId _ => true
  | Event.gridInit => true
  | Event.updateConstraints _ => true
  | Event.replaceConstraints _ => true
  | Event.setVariables _ => true
  | Event.printInvalidProtocol _ => true
  | _ => false

/-- Scan asserting that between any two consecutive fetch attempts at
least one sleep occurs; the flag records a fetch attempt not yet
followed by a sleep. -/
def sleepsBetweenAux : List Event → Bool → Bool
  | [], _ => true
  | Event.fetchAttempt _ :: r, pending =>
    if pending then false else sleepsBetweenAux r true
  | Event.sleep _ :: r, _ => sleepsBetweenAux r false
  | _ :: r, pending => sleepsBetweenAux r pending

/-- Between every pair of consecutive fetch attempts there is a sleep. -/
def sleepsBetweenConsecutiveAttempts (t : List Event) : Bool :=
  sleepsBetweenAux t false

/-- Scan asserting that every fetch attempt is eventually followed by a
sleep, including the last one; the flag records a fetch attempt not yet
followed by a sleep, which must be discharged by the end of the trace. -/
def followedAux : List Event → Bool → Bool
  | [], pending => !pending
  | Event.fetchAttempt _ :: r, _ => followedAux r true
  | Event.sleep _ :: r, _ => followedAux r false
  | _ :: r, pending => followedAux r pending

/-- Every fetch attempt in the trace is followed by a later sleep. -/
def everyAttemptFollowedBySleep (t : List Event) : Bool :=
  followedAux t false

/-- Every sleep in the trace lasts the fixed 10 seconds. -/
def sleepsAreFixedTen (t : List Event) : Bool :=
  t.all fun e =>
    match e with
    | Event.sleep s => s == 10
    | _ => true

/-- A protocol string the function rejects: neither griddap nor
tabledap. -/
def isInvalidProtocol (p : String) : Bool :=
  !(p == "griddap" || p == "tabledap")

/-- Whether the outcome is a successful fetch result. -/
def isSuccess : RunOutcome → Bool
  | RunOutcome.ret (some _) => true
  | _ => false

/-- The run used its whole attempt budget with no successful fetch. -/
def exhaustedNoSuccess (out : RunOutcome × List Event) (n : Int) : Prop :=
  numAttempts out.2 = n.toNat ∧ isSuccess out.1 = false

/-- Sample environment whose fetches always raise. -/
def env0 : Env :=
  { gridInit := fun c =>
      { c with constraints := [("time>=", "min(time)")],
               varNames := ["sea_water_temperature"] },
    fetchGrid := fun _ _ => none,
    fetchTable := fun _ _ => none }

/-- Sample environment whose fetches raise on attempt 0 and succeed on
attempt 1. -/
def env1 : Env :=
  { gridInit := fun c => c,
    fetchGrid := fun _ i => if i = 1 then some ⟨7⟩ else none,
    fetchTable := fun _ i => if i = 1 then some ⟨7⟩ else none }

/-- One step of the loop when the guard fails: the loop exits returning
the current value of erddap_data. -/
lemma retryLoop_stop (fetch : Nat → Option XData) (t a : Int)
    (dv : Option (Option XData)) (h : ¬ a < t) :
    retryLoop fetch t a dv = (dv, []) := by
  rw [retryLoop]
  simp [h]

/-- One step of the loop when the fetch succeeds: the result is bound
and the loop exits. -/
lemma retryLoop_succ_step (fetch : Nat → Option XData) (t a : Int)
    (dv : Option (Option XData)) (d : XData) (h : a < t)
    (hf : fetch a.toNat = some d) :
    retryLoop fetch t a dv =
      (some (some d), [Event.fetchAttempt a.toNat]) := by
  rw [retryLoop]
  simp [h, hf]

/-- One step of the loop when the fetch raises: the error lines are
printed, the counter is incremented, the thread sleeps, and the loop
continues with erddap_data bound to None. -/
lemma retryLoop_fail_step (fetch : Nat → Option XData) (t a : Int)
    (dv : Option (Option XData)) (h : a < t) (hf : fetch a.toNat = none) :
    retryLoop fetch t a dv =
      ((retryLoop fetch t (a + 1) (some none)).1,
       Event.fetchAttempt a.toNat :: Event.printConnError ::
       Event.printRetryMsg (a + 1) :: Event.sleep 10 ::
       (retryLoop fetch t (a + 1) (some none)).2) := by
  rw [retryLoop]
  simp [h, hf]

/-- When every attempt below the bound fails, the loop runs the full
budget, leaves the trace of all failed attempts, and ends with
erddap_data bound to None whenever it ran at least once. -/
lemma retryLoop_allFail (fetch : Nat → Option XData) (n : Int)
    (hf : ∀ i, i < n.toNat → fetch i = none) :
    ∀ (c : Nat) (a : Int), 0 ≤ a → (n - a).toNat = c →
    ∀ dv, retryLoop fetch n a dv =
      ((if a < n then some none else dv),
       allFailTrace a.toNat (n.toNat - a.toNat)) := by
  intro c
  induction c with
  | zero =>
    intro a ha hc dv
    have hna : ¬ a < n := by omega
    have h0 : n.toNat - a.toNat = 0 := by omega
    rw [retryLoop_stop fetch n a dv hna, h0, if_neg hna]
    rfl
  | succ c ih =>
    intro a ha hc dv
    have han : a < n := by omega
    have hfa : fetch a.toNat = none := hf _ (by omega)
    rw [retryLoop_fail_step fetch n a dv han hfa,
        ih (a + 1) (by omega) (by omega) (some none)]
    have h1 : (a + 1).toNat = a.toNat + 1 := by omega
    have h2 : n.toNat - a.toNat = (n.toNat - (a.toNat + 1)) + 1 := by omega
    have h3 : ((a.toNat : Int)) = a := Int.toNat_of_nonneg ha
    rw [h1, h2, if_pos han]
    simp [allFailTrace, failBlock, h3, ite_self]

/-- When the attempts below k fail and attempt k succeeds within the
budget, the loop stops right after attempt k with the fetched value. -/
lemma retryLoop_firstSuccess (fetch : Nat → Option XData) (n : Int)
    (k : Nat) (d : XData) (hk : (k : Int) < n) (hs : fetch k = some d)
    (hf : ∀ i, i < k → fetch i = none) :
    ∀ (c : Nat) (a : Int), 0 ≤ a → a ≤ (k : Int) → k - a.toNat = c →
    ∀ dv, retryLoop fetch n a dv =
      (some (some d),
       allFailTrace a.toNat (k - a.toNat) ++ [Event.fetchAttempt k]) := by
  intro c
  induction c with
  | zero =>
    intro a ha hak hc dv
    have hak2 : a.toNat = k := by omega
    have han : a < n := by omega
    have hfa : fetch a.toNat = some d := by rw [hak2]; exact hs
    rw [retryLoop_succ_step fetch n a dv d han hfa, hc, hak2]
    rfl
  | succ c ih =>
    intro a ha hak hc dv
    have haltk : a.toNat < k := by omega
    have han : a < n := by omega
    have hfa : fetch a.toNat = none := hf _ haltk
    rw [retryLoop_fail_step fetch n a dv han hfa,
        ih (a + 1) (by omega) (by omega) (by omega) (some none)]
    have h1 : (a + 1).toNat = a.toNat + 1 := by omega
    have h2 : k - a.toNat = (k - (a.toNat + 1)) + 1 := by omega
    have h3 : ((a.toNat : Int)) = a := Int.toNat_of_nonneg ha
    rw [h1, h2]
    simp [allFailTrace, failBlock, h3]

/-- The all-fail characterization at the loop entry point. -/
lemma retryLoop_allFail_zero (fetch : Nat → Option XData) (n : Int)
    (hf : ∀ i, i < n.toNat → fetch i = none) :
    retryLoop fetch n 0 none =
      ((if 0 < n then some none else none), allFailTrace 0 n.toNat) := by
  have h := retryLoop_allFail fetch n hf (n - 0).toNat 0 (by omega) rfl none
  simpa using h

/-- The first-success characterization at the loop entry point. -/
lemma retryLoop_firstSuccess_zero (fetch : Nat → Option XData) (n : Int)
    (k : Nat) (d : XData) (hk : (k : Int) < n) (hs : fetch k = some d)
    (hf : ∀ i, i < k → fetch i = none) :
    retryLoop fetch n 0 none =
      (some (some d), allFailTrace 0 k ++ [Event.fetchAttempt k]) := by
  have h := retryLoop_firstSuccess fetch n k d hk hs hf k 0 (by omega)
    (by omega) (by simp) none
  simpa using h

/-- Dichotomy for a loop that runs at least once: either every attempt
in the budget fails, or there is a first successful attempt and the
loop stops there with its value. -/
lemma retryLoop_zero_cases (fetch : Nat → Option XData) (n : Int)
    (hn : 1 ≤ n) :
    ((∀ i, i < n.toNat → fetch i = none) ∧
      retryLoop fetch n 0 none = (some none, allFailTrace 0 n.toNat)) ∨
    (∃ k d, k < n.toNat ∧ fetch k = some d ∧
      (∀ i, i < k → fetch i = none) ∧
      retryLoop fetch n 0 none =
        (some (some d), allFailTrace 0 k ++ [Event.fetchAttempt k])) := by
  by_cases hall : ∀ i, i < n.toNat → fetch i = none
  · left
    refine ⟨hall, ?_⟩
    rw [retryLoop_allFail_zero fetch n hall, if_pos (by omega)]
  · right
    push_neg at hall
    obtain ⟨i, hi, hne⟩ := hall
    have hex : ∃ j, (fetch j).isSome = true := by
      refine ⟨i, ?_⟩
      rcases h : fetch i with _ | d
      · exact absurd h hne
      · rfl
    classical
    let k := Nat.find hex
    have hkSome : (fetch k).isSome = true := Nat.find_spec hex
    obtain ⟨d, hd⟩ := Option.isSome_iff_exists.mp hkSome
    have hkmin : ∀ j, j < k → fetch j = none := by
      intro j hj
      have := Nat.find_min hex hj
      rcases h : fetch j with _ | w
      · rfl
      · exact absurd (by rw [h]; rfl) this
    have hki : k ≤ i := Nat.find_min' hex (by
      rcases h : fetch i with _ | w
      · exact absurd h hne
      · rfl)
    have hkn : k < n.toNat := lt_of_le_of_lt hki hi
    refine ⟨k, d, hkn, hd, hkmin, ?_⟩
    exact retryLoop_firstSuccess_zero fetch n k d (by omega) hd hkmin

/-- Appending a single entry wins over every earlier write of its key. -/
lemma dictLookup_append_single (d : List (String × String))
    (k v q : String) :
    dictLookup (d ++ [(k, v)]) q =
      if q = k then some v else dictLookup d q := by
  induction d with
  | nil =>
    by_cases h : q = k
    · subst h
      simp [dictLookup]
    · simp [dictLookup, h, Ne.symm h]
  | cons p rest ih =>
    by_cases h : q = k
    · subst h
      simp [dictLookup, ih]
    · simp [dictLookup, ih, h]

/-- A dict assignment rewrites exactly the written key. -/
lemma dictLookup_dictInsert (d : List (String × String)) (k v q : String) :
    dictLookup (dictInsert d k v) q =
      if q = k then some v else dictLookup d q := by
  rw [dictInsert]
  by_cases hmem : d.any (fun p => p.1 = k)
  · rw [if_pos hmem]
    have general : ∀ (l : List (String × String)),
        dictLookup (l.map (fun p => if p.1 = k then (k, v) else p)) q =
          if q = k then (if l.any (fun p => p.1 = k) then some v else none)
          else dictLookup l q := by
      intro l
      induction l with
      | nil => by_cases h : q = k <;> simp [dictLookup, h]
      | cons p rest ih =>
        by_cases h : q = k
        · subst h
          by_cases hrest : rest.any (fun p => p.1 = q)
          · simp [dictLookup, ih, hrest]
          · by_cases hp : p.1 = q
            · simp [dictLookup, ih, hrest, hp]
            · simp [dictLookup, ih, hrest, hp]
        · by_cases hp : p.1 = k
          · simp [dictLookup, ih, h, hp, Ne.symm h]
          · simp [dictLookup, ih, h, hp]
    rw [general d, hmem, if_pos rfl]
  · rw [if_neg hmem]
    exact dictLookup_append_single d k v q

/-- Python dict.update is a merge: a key present in the update wins,
and every other key keeps the value it had before. -/
lemma dictLookup_dictUpdate :
    ∀ (c d : List (String × String)) (q : String),
    dictLookup (dictUpdate d c) q =
      match dictLookup c q with
      | some v => some v
      | none => dictLookup d q := by
  intro c
  induction c with
  | nil => intro d q; rfl
  | cons p rest ih =>
    intro d q
    have hstep : dictUpdate d (p :: rest) =
        dictUpdate (dictInsert d p.1 p.2) rest := rfl
    rw [hstep, ih, dictLookup_dictInsert]
    rcases hrest : dictLookup rest q with _ | w
    · simp only [dictLookup, hrest]
      by_cases h : q = p.1
      · simp [h]
      · simp [h, Ne.symm h]
    · simp [dictLookup, hrest]

/-- Attempt counting distributes over trace concatenation. -/
lemma numAttempts_append (s t : List Event) :
    numAttempts (s ++ t) = numAttempts s + numAttempts t := by
  simp [numAttempts, List.filter_append]

/-- Sleep counting distributes over trace concatenation. -/
lemma numSleeps_append (s t : List Event) :
    numSleeps (s ++ t) = numSleeps s + numSleeps t := by
  simp [numSleeps, List.filter_append]

/-- A run of cnt failed attempts contains exactly cnt fetch attempts. -/
lemma numAttempts_allFailTrace :
    ∀ (cnt start : Nat), numAttempts (allFailTrace start cnt) = cnt := by
  intro cnt
  induction cnt with
  | zero => intro start; rfl
  | succ c ih =>
    intro start
    rw [allFailTrace, numAttempts_append, ih]
    simp [failBlock, numAttempts, isAttemptEvent, List.filter]
    omega

/-- A run of cnt failed attempts contains exactly cnt sleeps. -/
lemma numSleeps_allFailTrace :
    ∀ (cnt start : Nat), numSleeps (allFailTrace start cnt) = cnt := by
  intro cnt
  induction cnt with
  | zero => intro start; rfl
  | succ c ih =>
    intro start
    rw [allFailTrace, numSleeps_append, ih]
    simp [failBlock, numSleeps, isSleepEvent, List.filter]
    omega

/-- The final diagnostic is never printed inside the retry loop. -/
lemma printFinalError_not_mem_allFailTrace :
    ∀ (cnt start : Nat), Event.printFinalError ∉ allFailTrace start cnt := by
  intro cnt
  induction cnt with
  | zero => intro start; simp [allFailTrace]
  | succ c ih =>
    intro start
    simp [allFailTrace, failBlock, ih]

/-- A setup event is not a fetch attempt. -/
lemma setup_not_attempt (e : Event) (he : isSetupEvent e = true) :
    isAttemptEvent e = false := by
  cases e <;> simp_all [isSetupEvent, isAttemptEvent]

/-- A setup event is not a sleep. -/
lemma setup_not_sleep (e : Event) (he : isSetupEvent e = true) :
    isSleepEvent e = false := by
  cases e <;> simp_all [isSetupEvent, isSleepEvent]

/-- A trace of setup events contains no fetch attempts. -/
lemma numAttempts_of_setup (l : List Event)
    (hl : l.all isSetupEvent = true) : numAttempts l = 0 := by
  induction l with
  | nil => rfl
  | cons e rest ih =>
    rw [List.all_cons, Bool.and_eq_true] at hl
    have h1 := setup_not_attempt e hl.1
    have h2 := ih hl.2
    simp only [numAttempts, List.filter, h1] at h2 ⊢
    exact h2

/-- A trace of setup events contains no sleeps. -/
lemma numSleeps_of_setup (l : List Event)
    (hl : l.all isSetupEvent = true) : numSleeps l = 0 := by
  induction l with
  | nil => rfl
  | cons e rest ih =>
    rw [List.all_cons, Bool.and_eq_true] at hl
    have h1 := setup_not_sleep e hl.1
    have h2 := ih hl.2
    simp only [numSleeps, List.filter, h1] at h2 ⊢
    exact h2

/-- A trace of setup events contains no final diagnostic. -/
lemma printFinalError_not_mem_of_setup (l : List Event)
    (hl : l.all isSetupEvent = true) : Event.printFinalError ∉ l := by
  induction l with
  | nil => simp
  | cons e rest ih =>
    rw [List.all_cons, Bool.and_eq_true] at hl
    intro hmem
    rcases List.mem_cons.mp hmem with h | h
    · rw [← h] at hl
      simp [isSetupEvent] at hl
    · exact ih hl.2 h

/-- A prefix of setup events does not affect the
sleep-between-attempts scan. -/
lemma sleepsBetweenAux_setup_append (l : List Event)
    (hl : l.all isSetupEvent = true) (r : List Event) (b : Bool) :
    sleepsBetweenAux (l ++ r) b = sleepsBetweenAux r b := by
  induction l generalizing b with
  | nil => rfl
  | cons e rest ih =>
    rw [List.all_cons, Bool.and_eq_true] at hl
    have h1 := hl.1
    have h2 := ih hl.2
    cases e <;>
      first
      | (simpa [sleepsBetweenAux] using h2 b)
      | (simp [isSetupEvent] at h1)

/-- A prefix of setup events does not affect the
attempt-followed-by-sleep scan. -/
lemma followedAux_setup_append (l : List Event)
    (hl : l.all isSetupEvent = true) (r : List Event) (b : Bool) :
    followedAux (l ++ r) b = followedAux r b := by
  induction l generalizing b with
  | nil => rfl
  | cons e rest ih =>
    rw [List.all_cons, Bool.and_eq_true] at hl
    have h1 := hl.1
    have h2 := ih hl.2
    cases e <;>
      first
      | (simpa [followedAux] using h2 b)
      | (simp [isSetupEvent] at h1)

/-- Every event emitted by the griddap configuration phase is a setup
event. -/
lemma gridConfigure_setup (env : Env) (e : Client)
    (v : Option (List String)) (c : Option (List (String × String))) :
    ((gridConfigure env e v c).2).all isSetupEvent = true := by
  rcases v with _ | vars <;> rcases c with _ | cons <;>
    simp [gridConfigure, isSetupEvent]

/-- Every event emitted by the tabledap configuration phase is a setup
event. -/
lemma tableConfigure_setup (e : Client)
    (v : Option (List String)) (c : Option (List (String × String))) :
    ((tableConfigure e v c).2).all isSetupEvent = true := by
  rcases v with _ | vars <;> rcases c with _ | cons <;>
    simp [tableConfigure, isSetupEvent]

/-- The griddap branch of the function, written through the named
configuration and loop helpers. -/
lemma get_erddap_data_grid (env : Env) (url ds : String)
    (v : Option (List String)) (c : Option (List (String × String)))
    (t : Int) :
    get_erddap_data env url ds "griddap" v c t =
      finishRun
        (retryLoop (env.fetchGrid (gridFetchClient env url ds v c)) t 0
          none).1
        ([Event.constructClient url "griddap" "csv",
          Event.setDatasetId ds] ++
          (gridConfigure env (initialClient url ds "griddap") v c).2 ++
          (retryLoop (env.fetchGrid (gridFetchClient env url ds v c)) t 0
            none).2) := by
  rw [get_erddap_data, gridFetchClient]
  simp

/-- The tabledap branch of the function, written through the named
configuration and loop helpers. -/
lemma get_erddap_data_table (env : Env) (url ds : String)
    (v : Option (List String)) (c : Option (List (String × String)))
    (t : Int) :
    get_erddap_data env url ds "tabledap" v c t =
      finishRun
        (retryLoop (env.fetchTable (tableFetchClient url ds v c)) t 0
          none).1
        ([Event.constructClient url "tabledap" "csv",
          Event.setDatasetId ds] ++
          (tableConfigure (initialClient url ds "tabledap") v c).2 ++
          (retryLoop (env.fetchTable (tableFetchClient url ds v c)) t 0
            none).2) := by
  rw [get_erddap_data, tableFetchClient]
  rw [if_neg (by decide)]
  simp

/-- The invalid-protocol branch of the function: the client is built and
configured, the diagnostic lines are printed, and None is returned
after the final diagnostic. -/
lemma get_erddap_data_invalid (env : Env) (url ds p : String)
    (v : Option (List String)) (c : Option (List (String × String)))
    (t : Int) (h1 : p ≠ "griddap") (h2 : p ≠ "tabledap") :
    get_erddap_data env url ds p v c t =
      (RunOutcome.ret none,
       [Event.constructClient url p "csv", Event.setDatasetId ds,
        Event.printInvalidProtocol p, Event.printFinalError]) := by
  rw [get_erddap_data, if_neg h1, if_neg h2]
  rfl

/-- A block of failed attempts leaves the sleep-between-attempts scan in
its initial state: each attempt is closed by its own sleep. -/
lemma sleepsBetweenAux_allFailTrace :
    ∀ (cnt start : Nat) (r : List Event),
    sleepsBetweenAux (allFailTrace start cnt ++ r) false =
      sleepsBetweenAux r false := by
  intro cnt
  induction cnt with
  | zero => intro start r; rfl
  | succ c ih =>
    intro start r
    simp only [allFailTrace, failBlock, List.append_assoc, List.cons_append,
      List.nil_append, sleepsBetweenAux]
    rw [if_neg (by simp)]
    exact ih (start + 1) r

/-- A nonempty block of failed attempts leaves the
attempt-followed-by-sleep scan with no pending attempt, whatever flag it
started with: the last failed attempt is followed by its sleep. -/
lemma followedAux_allFailTrace_succ :
    ∀ (cnt start : Nat) (r : List Event) (b : Bool),
    followedAux (allFailTrace start (cnt + 1) ++ r) b = followedAux r false := by
  intro cnt
  induction cnt with
  | zero =>
    intro start r b
    simp [allFailTrace, failBlock, followedAux]
  | succ c ih =>
    intro start r b
    have hstep : allFailTrace start (c + 1 + 1) ++ r =
        failBlock start ++ (allFailTrace (start + 1) (c + 1) ++ r) := by
      simp [allFailTrace, List.append_assoc]
    rw [hstep]
    simp only [failBlock, List.cons_append, List.nil_append, followedAux]
    exact ih (start + 1) r false

/-- C9: when the protocol argument is omitted the function uses
"griddap", and when the retry bound is omitted it uses 5: the call with
the two arguments omitted is the call with protocol "griddap", no
variables, no constraints, and retry bound 5. -/
theorem C9_default_arguments (env : Env) (url ds : String) :
    get_erddap_data env url ds =
      get_erddap_data env url ds "griddap" none none 5 := rfl

/-- C6: for every protocol string that is neither griddap nor tabledap,
the function emits the invalid-protocol diagnostic, performs zero fetch
attempts, and returns None. -/
theorem C6_invalid_protocol_no_fetch (env : Env) (url ds p : String)
    (v : Option (List String)) (c : Option (List (String × String)))
    (t : Int) (h1 : p ≠ "griddap") (h2 : p ≠ "tabledap") :
    (get_erddap_data env url ds p v c t).1 = RunOutcome.ret none ∧
    numAttempts (get_erddap_data env url ds p v c t).2 = 0 ∧
    Event.printInvalidProtocol p ∈ (get_erddap_data env url ds p v c t).2 := by
  rw [get_erddap_data_invalid env url ds p v c t h1 h2]
  refine ⟨rfl, rfl, by simp⟩

/-- Witness for C6 at the spec's example protocol string "tabledap2". -/
theorem C6_witness :
    ("tabledap2" ≠ "griddap") ∧ ("tabledap2" ≠ "tabledap") ∧
    ((get_erddap_data env0 "https://example.org/erddap" "ds1" "tabledap2"
        none none 5).1 = RunOutcome.ret none ∧
     numAttempts (get_erddap_data env0 "https://example.org/erddap" "ds1"
        "tabledap2" none none 5).2 = 0 ∧
     Event.printInvalidProtocol "tabledap2" ∈
       (get_erddap_data env0 "https://example.org/erddap" "ds1" "tabledap2"
          none none 5).2) :=
  ⟨by decide, by decide,
   C6_invalid_protocol_no_fetch env0 "https://example.org/erddap" "ds1"
     "tabledap2" none none 5 (by decide) (by decide)⟩

/-- C10: for an invalid protocol the client object is still constructed
and configured first - the trace starts with the construction event
carrying the server address, the protocol string and the response
encoding, then the dataset-id assignment, and only then the validation
diagnostic; and the constructed client state has all four fields set. -/
theorem C10_client_built_before_validation (env : Env) (url ds p : String)
    (v : Option (List String)) (c : Option (List (String × String)))
    (t : Int) (h1 : p ≠ "griddap") (h2 : p ≠ "tabledap") :
    (get_erddap_data env url ds p v c t).2 =
      [Event.constructClient url p "csv", Event.setDatasetId ds,
       Event.printInvalidProtocol p, Event.printFinalError] ∧
    initialClient url ds p =
      { server := url, protocol := p, response := "csv", dataset_id := ds,
        constraints := [], varNames := [] } := by
  refine ⟨?_, rfl⟩
  rw [get_erddap_data_invalid env url ds p v c t h1 h2]

/-- Witness for C10 at a concrete invalid protocol string. -/
theorem C10_witness :
    ("griddap2" ≠ "griddap") ∧ ("griddap2" ≠ "tabledap") ∧
    ((get_erddap_data env0 "https://example.org/erddap" "ds1" "griddap2"
        none none 5).2 =
      [Event.constructClient "https://example.org/erddap" "griddap2" "csv",
       Event.setDatasetId "ds1",
       Event.printInvalidProtocol "griddap2", Event.printFinalError] ∧
     initialClient "https://example.org/erddap" "ds1" "griddap2" =
      { server := "https://example.org/erddap", protocol := "griddap2",
        response := "csv", dataset_id := "ds1",
        constraints := [], varNames := [] }) :=
  ⟨by decide, by decide,
   C10_client_built_before_validation env0 "https://example.org/erddap"
     "ds1" "griddap2" none none 5 (by decide) (by decide)⟩

/-- C2: with a valid protocol and a retry bound at most 0, the loop
body never runs (zero fetch attempts) and the final check reads the
never-assigned local erddap_data, so the function raises an
unbound-local error instead of returning None. -/
theorem C2_unbound_local_on_nonpositive_bound (env : Env) (url ds : String)
    (v : Option (List String)) (c : Option (List (String × String)))
    (t : Int) (ht : t ≤ 0) :
    (get_erddap_data env url ds "griddap" v c t).1 =
      RunOutcome.raise "UnboundLocalError" ∧
    numAttempts (get_erddap_data env url ds "griddap" v c t).2 = 0 ∧
    (get_erddap_data env url ds "tabledap" v c t).1 =
      RunOutcome.raise "UnboundLocalError" ∧
    numAttempts (get_erddap_data env url ds "tabledap" v c t).2 = 0 := by
  have hstop1 := retryLoop_stop
    (env.fetchGrid (gridFetchClient env url ds v c)) t 0 none (by omega)
  have hstop2 := retryLoop_stop
    (env.fetchTable (tableFetchClient url ds v c)) t 0 none (by omega)
  rw [get_erddap_data_grid, get_erddap_data_table, hstop1, hstop2]
  refine ⟨rfl, ?_, rfl, ?_⟩
  · show numAttempts ([Event.constructClient url "griddap" "csv",
      Event.setDatasetId ds] ++
      (gridConfigure env (initialClient url ds "griddap") v c).2 ++ []) = 0
    rw [numAttempts_append, numAttempts_append,
      numAttempts_of_setup _ (gridConfigure_setup env _ v c)]
    rfl
  · show numAttempts ([Event.constructClient url "tabledap" "csv",
      Event.setDatasetId ds] ++
      (tableConfigure (initialClient url ds "tabledap") v c).2 ++ []) = 0
    rw [numAttempts_append, numAttempts_append,
      numAttempts_of_setup _ (tableConfigure_setup _ v c)]
    rfl

/-- Witness for C2 at retry bound 0. -/
theorem C2_witness :
    (0 : Int) ≤ 0 ∧
    ((get_erddap_data env0 "https://example.org/erddap" "ds1" "griddap"
        none none 0).1 = RunOutcome.raise "UnboundLocalError" ∧
     numAttempts (get_erddap_data env0 "https://example.org/erddap" "ds1"
        "griddap" none none 0).2 = 0 ∧
     (get_erddap_data env0 "https://example.org/erddap" "ds1" "tabledap"
        none none 0).1 = RunOutcome.raise "UnboundLocalError" ∧
     numAttempts (get_erddap_data env0 "https://example.org/erddap" "ds1"
        "tabledap" none none 0).2 = 0) :=
  ⟨by decide,
   C2_unbound_local_on_nonpositive_bound env0 "https://example.org/erddap"
     "ds1" none none 0 (by decide)⟩

/-- The construction and configuration prefix of a griddap run consists
of setup events only. -/
lemma grid_pre_setup (env : Env) (url ds : String)
    (v : Option (List String)) (c : Option (List (String × String))) :
    (([Event.constructClient url "griddap" "csv", Event.setDatasetId ds] ++
      (gridConfigure env (initialClient url ds "griddap") v c).2)).all
        isSetupEvent = true := by
  simp [List.all_append, isSetupEvent, gridConfigure_setup]

/-- The construction and configuration prefix of a tabledap run consists
of setup events only. -/
lemma table_pre_setup (url ds : String)
    (v : Option (List String)) (c : Option (List (String × String))) :
    (([Event.constructClient url "tabledap" "csv", Event.setDatasetId ds] ++
      (tableConfigure (initialClient url ds "tabledap") v c).2)).all
        isSetupEvent = true := by
  simp [List.all_append, isSetupEvent, tableConfigure_setup]

/-- A griddap run whose every fetch attempt raises: the full budget is
consumed and None is returned after the final diagnostic. -/
lemma run_grid_allFail (env : Env) (url ds : String)
    (v : Option (List String)) (c : Option (List (String × String)))
    (t : Int) (hpos : 0 < t)
    (hg : ∀ i, i < t.toNat →
      env.fetchGrid (gridFetchClient env url ds v c) i = none) :
    get_erddap_data env url ds "griddap" v c t =
      (RunOutcome.ret none,
       (([Event.constructClient url "griddap" "csv",
          Event.setDatasetId ds] ++
         (gridConfigure env (initialClient url ds "griddap") v c).2) ++
         allFailTrace 0 t.toNat) ++ [Event.printFinalError]) := by
  rw [get_erddap_data_grid, retryLoop_allFail_zero _ t hg, if_pos hpos]
  rfl

/-- A tabledap run whose every fetch attempt raises. -/
lemma run_table_allFail (env : Env) (url ds : String)
    (v : Option (List String)) (c : Option (List (String × String)))
    (t : Int) (hpos : 0 < t)
    (ht : ∀ i, i < t.toNat →
      env.fetchTable (tableFetchClient url ds v c) i = none) :
    get_erddap_data env url ds "tabledap" v c t =
      (RunOutcome.ret none,
       (([Event.constructClient url "tabledap" "csv",
          Event.setDatasetId ds] ++
         (tableConfigure (initialClient url ds "tabledap") v c).2) ++
         allFailTrace 0 t.toNat) ++ [Event.printFinalError]) := by
  rw [get_erddap_data_table, retryLoop_allFail_zero _ t ht, if_pos hpos]
  rfl

/-- A griddap run whose first success is attempt k within the budget:
the loop stops right there and the fetched value is returned. -/
lemma run_grid_firstSuccess (env : Env) (url ds : String)
    (v : Option (List String)) (c : Option (List (String × String)))
    (t : Int) (k : Nat) (d : XData) (hk : (k : Int) < t)
    (hs : env.fetchGrid (gridFetchClient env url ds v c) k = some d)
    (hf : ∀ i, i < k →
      env.fetchGrid (gridFetchClient env url ds v c) i = none) :
    get_erddap_data env url ds "griddap" v c t =
      (RunOutcome.ret (some d),
       ([Event.constructClient url "griddap" "csv",
         Event.setDatasetId ds] ++
        (gridConfigure env (initialClient url ds "griddap") v c).2) ++
        (allFailTrace 0 k ++ [Event.fetchAttempt k])) := by
  rw [get_erddap_data_grid, retryLoop_firstSuccess_zero _ t k d hk hs hf]
  rfl

/-- A tabledap run whose first success is attempt k within the budget. -/
lemma run_table_firstSuccess (env : Env) (url ds : String)
    (v : Option (List String)) (c : Option (List (String × String)))
    (t : Int) (k : Nat) (d : XData) (hk : (k : Int) < t)
    (hs : env.fetchTable (tableFetchClient url ds v c) k = some d)
    (hf : ∀ i, i < k →
      env.fetchTable (tableFetchClient url ds v c) i = none) :
    get_erddap_data env url ds "tabledap" v c t =
      (RunOutcome.ret (some d),
       ([Event.constructClient url "tabledap" "csv",
         Event.setDatasetId ds] ++
        (tableConfigure (initialClient url ds "tabledap") v c).2) ++
        (allFailTrace 0 k ++ [Event.fetchAttempt k])) := by
  rw [get_erddap_data_table, retryLoop_firstSuccess_zero _ t k d hk hs hf]
  rfl

/-- Attempt count of a total-failure trace. -/
lemma numAttempts_full_allFail (pre : List Event)
    (hpre : pre.all isSetupEvent = true) (m : Nat) :
    numAttempts ((pre ++ allFailTrace 0 m) ++ [Event.printFinalError]) =
      m := by
  rw [numAttempts_append, numAttempts_append,
    numAttempts_of_setup pre hpre, numAttempts_allFailTrace]
  have h0 : numAttempts [Event.printFinalError] = 0 := rfl
  rw [h0]
  omega

/-- Sleep count of a total-failure trace. -/
lemma numSleeps_full_allFail (pre : List Event)
    (hpre : pre.all isSetupEvent = true) (m : Nat) :
    numSleeps ((pre ++ allFailTrace 0 m) ++ [Event.printFinalError]) =
      m := by
  rw [numSleeps_append, numSleeps_append,
    numSleeps_of_setup pre hpre, numSleeps_allFailTrace]
  have h0 : numSleeps [Event.printFinalError] = 0 := rfl
  rw [h0]
  omega

/-- Attempt count of a trace ending in the first success at attempt k. -/
lemma numAttempts_full_success (pre : List Event)
    (hpre : pre.all isSetupEvent = true) (k : Nat) :
    numAttempts (pre ++ (allFailTrace 0 k ++ [Event.fetchAttempt k])) =
      k + 1 := by
  rw [numAttempts_append, numAttempts_append,
    numAttempts_of_setup pre hpre, numAttempts_allFailTrace]
  have h1 : numAttempts [Event.fetchAttempt k] = 1 := rfl
  rw [h1]
  omega

/-- In a total-failure trace there is a sleep between every pair of
consecutive fetch attempts. -/
lemma sleepsBetween_full_allFail (pre : List Event)
    (hpre : pre.all isSetupEvent = true) (m : Nat) :
    sleepsBetweenConsecutiveAttempts
      ((pre ++ allFailTrace 0 m) ++ [Event.printFinalError]) = true := by
  rw [sleepsBetweenConsecutiveAttempts, List.append_assoc,
    sleepsBetweenAux_setup_append pre hpre, sleepsBetweenAux_allFailTrace]
  rfl

/-- In a nonempty total-failure trace every fetch attempt, the last one
included, is followed by a sleep. -/
lemma followed_full_allFail (pre : List Event)
    (hpre : pre.all isSetupEvent = true) (m : Nat) :
    everyAttemptFollowedBySleep
      ((pre ++ allFailTrace 0 (m + 1)) ++ [Event.printFinalError]) =
        true := by
  rw [everyAttemptFollowedBySleep, List.append_assoc,
    followedAux_setup_append pre hpre, followedAux_allFailTrace_succ]
  rfl

/-- Sleeps inside the loop trace are the fixed 10 seconds. -/
lemma sleepsAreFixedTen_allFailTrace :
    ∀ (cnt start : Nat), sleepsAreFixedTen (allFailTrace start cnt) = true := by
  intro cnt
  induction cnt with
  | zero => intro start; rfl
  | succ c ih =>
    intro start
    simp only [allFailTrace, sleepsAreFixedTen, List.all_append] at ih ⊢
    simp [failBlock, ih]

/-- Setup events are not sleeps, so they satisfy the fixed-interval
check trivially. -/
lemma sleepsAreFixedTen_of_setup (l : List Event)
    (hl : l.all isSetupEvent = true) : sleepsAreFixedTen l = true := by
  induction l with
  | nil => rfl
  | cons e rest ih =>
    rw [List.all_cons, Bool.and_eq_true] at hl
    have h1 := hl.1
    have h2 := ih hl.2
    simp only [sleepsAreFixedTen, List.all_cons, Bool.and_eq_true] at h2 ⊢
    refine ⟨?_, h2⟩
    cases e <;> simp_all [isSetupEvent]

/-- Every sleep of a total-failure trace is the fixed 10 seconds. -/
lemma sleepsAreFixedTen_full_allFail (pre : List Event)
    (hpre : pre.all isSetupEvent = true) (m : Nat) :
    sleepsAreFixedTen
      ((pre ++ allFailTrace 0 m) ++ [Event.printFinalError]) = true := by
  have h1 := sleepsAreFixedTen_of_setup pre hpre
  have h2 := sleepsAreFixedTen_allFailTrace m 0
  simp only [sleepsAreFixedTen, List.all_append] at h1 h2 ⊢
  simp [h1, h2]

/-- C3: with a valid protocol, a fetch that always raises and retry
bound 3, the function performs exactly 3 fetch attempts, sleeps between
each pair of consecutive attempts, and returns None. -/
theorem C3_three_attempts_on_total_failure (env : Env) (url ds : String)
    (v : Option (List String)) (c : Option (List (String × String)))
    (hg : ∀ i, env.fetchGrid (gridFetchClient env url ds v c) i = none)
    (ht : ∀ i, env.fetchTable (tableFetchClient url ds v c) i = none) :
    ((get_erddap_data env url ds "griddap" v c 3).1 = RunOutcome.ret none ∧
     numAttempts (get_erddap_data env url ds "griddap" v c 3).2 = 3 ∧
     sleepsBetweenConsecutiveAttempts
       (get_erddap_data env url ds "griddap" v c 3).2 = true ∧
     sleepsAreFixedTen (get_erddap_data env url ds "griddap" v c 3).2 =
       true) ∧
    ((get_erddap_data env url ds "tabledap" v c 3).1 = RunOutcome.ret none ∧
     numAttempts (get_erddap_data env url ds "tabledap" v c 3).2 = 3 ∧
     sleepsBetweenConsecutiveAttempts
       (get_erddap_data env url ds "tabledap" v c 3).2 = true ∧
     sleepsAreFixedTen (get_erddap_data env url ds "tabledap" v c 3).2 =
       true) := by
  have hgrid := run_grid_allFail env url ds v c 3 (by decide)
    (fun i _ => hg i)
  have htab := run_table_allFail env url ds v c 3 (by decide)
    (fun i _ => ht i)
  rw [hgrid, htab]
  refine ⟨⟨rfl, ?_, ?_, ?_⟩, rfl, ?_, ?_, ?_⟩
  · exact numAttempts_full_allFail _ (grid_pre_setup env url ds v c) _
  · exact sleepsBetween_full_allFail _ (grid_pre_setup env url ds v c) _
  · exact sleepsAreFixedTen_full_allFail _ (grid_pre_setup env url ds v c) _
  · exact numAttempts_full_allFail _ (table_pre_setup url ds v c) _
  · exact sleepsBetween_full_allFail _ (table_pre_setup url ds v c) _
  · exact sleepsAreFixedTen_full_allFail _ (table_pre_setup url ds v c) _

/-- Witness for C3 with the always-raising sample environment. -/
theorem C3_witness :
    (∀ i, env0.fetchGrid
      (gridFetchClient env0 "https://example.org/erddap" "ds1" none none)
      i = none) ∧
    (∀ i, env0.fetchTable
      (tableFetchClient "https://example.org/erddap" "ds1" none none)
      i = none) ∧
    (((get_erddap_data env0 "https://example.org/erddap" "ds1" "griddap"
        none none 3).1 = RunOutcome.ret none ∧
      numAttempts (get_erddap_data env0 "https://example.org/erddap" "ds1"
        "griddap" none none 3).2 = 3 ∧
      sleepsBetweenConsecutiveAttempts
        (get_erddap_data env0 "https://example.org/erddap" "ds1" "griddap"
          none none 3).2 = true ∧
      sleepsAreFixedTen (get_erddap_data env0 "https://example.org/erddap"
        "ds1" "griddap" none none 3).2 = true) ∧
     ((get_erddap_data env0 "https://example.org/erddap" "ds1" "tabledap"
        none none 3).1 = RunOutcome.ret none ∧
      numAttempts (get_erddap_data env0 "https://example.org/erddap" "ds1"
        "tabledap" none none 3).2 = 3 ∧
      sleepsBetweenConsecutiveAttempts
        (get_erddap_data env0 "https://example.org/erddap" "ds1" "tabledap"
          none none 3).2 = true ∧
      sleepsAreFixedTen (get_erddap_data env0 "https://example.org/erddap"
        "ds1" "tabledap" none none 3).2 = true)) :=
  ⟨fun _ => rfl, fun _ => rfl,
   C3_three_attempts_on_total_failure env0 "https://example.org/erddap"
     "ds1" none none (fun _ => rfl) (fun _ => rfl)⟩

/-- C4: with a valid protocol, if the attempts before attempt index k
all raise and attempt k succeeds within the budget, the function returns
that fetch result and performs exactly k+1 attempts: a successful
attempt stops retrying immediately.  The claim's scenario is k = 1 (fail
on the 1st attempt, succeed on the 2nd) with retry bound 5, giving
exactly 2 attempts. -/
theorem C4_success_stops_retrying (env : Env) (url ds : String)
    (v : Option (List String)) (c : Option (List (String × String)))
    (t : Int) (k : Nat) (d : XData) (hk : (k : Int) < t)
    (hgf : ∀ i, i < k →
      env.fetchGrid (gridFetchClient env url ds v c) i = none)
    (hgs : env.fetchGrid (gridFetchClient env url ds v c) k = some d)
    (htf : ∀ i, i < k →
      env.fetchTable (tableFetchClient url ds v c) i = none)
    (hts : env.fetchTable (tableFetchClient url ds v c) k = some d) :
    ((get_erddap_data env url ds "griddap" v c t).1 =
       RunOutcome.ret (some d) ∧
     numAttempts (get_erddap_data env url ds "griddap" v c t).2 = k + 1) ∧
    ((get_erddap_data env url ds "tabledap" v c t).1 =
       RunOutcome.ret (some d) ∧
     numAttempts (get_erddap_data env url ds "tabledap" v c t).2 =
       k + 1) := by
  rw [run_grid_firstSuccess env url ds v c t k d hk hgs hgf,
      run_table_firstSuccess env url ds v c t k d hk hts htf]
  refine ⟨⟨rfl, ?_⟩, rfl, ?_⟩
  · exact numAttempts_full_success _ (grid_pre_setup env url ds v c) k
  · exact numAttempts_full_success _ (table_pre_setup url ds v c) k

/-- Witness for C4: fail on attempt 0, succeed on attempt 1, retry
bound 5, exactly 2 attempts. -/
theorem C4_witness :
    ((1 : Nat) : Int) < 5 ∧
    (∀ i, i < 1 → env1.fetchGrid
      (gridFetchClient env1 "https://example.org/erddap" "ds1" none none)
      i = none) ∧
    env1.fetchGrid
      (gridFetchClient env1 "https://example.org/erddap" "ds1" none none)
      1 = some ⟨7⟩ ∧
    (∀ i, i < 1 → env1.fetchTable
      (tableFetchClient "https://example.org/erddap" "ds1" none none)
      i = none) ∧
    env1.fetchTable
      (tableFetchClient "https://example.org/erddap" "ds1" none none)
      1 = some ⟨7⟩ ∧
    (((get_erddap_data env1 "https://example.org/erddap" "ds1" "griddap"
        none none 5).1 = RunOutcome.ret (some ⟨7⟩) ∧
      numAttempts (get_erddap_data env1 "https://example.org/erddap" "ds1"
        "griddap" none none 5).2 = 1 + 1) ∧
     ((get_erddap_data env1 "https://example.org/erddap" "ds1" "tabledap"
        none none 5).1 = RunOutcome.ret (some ⟨7⟩) ∧
      numAttempts (get_erddap_data env1 "https://example.org/erddap" "ds1"
        "tabledap" none none 5).2 = 1 + 1)) :=
  ⟨by decide,
   fun i hi => by
     have h0 : i = 0 := by omega
     subst h0
     rfl,
   rfl,
   fun i hi => by
     have h0 : i = 0 := by omega
     subst h0
     rfl,
   rfl,
   C4_success_stops_retrying env1 "https://example.org/erddap" "ds1"
     none none 5 1 ⟨7⟩ (by decide)
     (fun i hi => by
       have h0 : i = 0 := by omega
       subst h0
       rfl)
     rfl
     (fun i hi => by
       have h0 : i = 0 := by omega
       subst h0
       rfl)
     rfl⟩

/-- C8: on total failure with retry bound m at least 1 and a valid
protocol, the function sleeps after every failed attempt, the final one
included: the trace has exactly m sleeps (not m-1) and m attempts, and
every attempt is followed by a later sleep. -/
theorem C8_sleep_after_every_failed_attempt (env : Env) (url ds : String)
    (v : Option (List String)) (c : Option (List (String × String)))
    (m : Nat) (hm : 1 ≤ m)
    (hg : ∀ i, env.fetchGrid (gridFetchClient env url ds v c) i = none)
    (ht : ∀ i, env.fetchTable (tableFetchClient url ds v c) i = none) :
    (numSleeps (get_erddap_data env url ds "griddap" v c (m : Int)).2 = m ∧
     numAttempts (get_erddap_data env url ds "griddap" v c (m : Int)).2 =
       m ∧
     everyAttemptFollowedBySleep
       (get_erddap_data env url ds "griddap" v c (m : Int)).2 = true ∧
     sleepsAreFixedTen
       (get_erddap_data env url ds "griddap" v c (m : Int)).2 = true) ∧
    (numSleeps (get_erddap_data env url ds "tabledap" v c (m : Int)).2 =
       m ∧
     numAttempts (get_erddap_data env url ds "tabledap" v c (m : Int)).2 =
       m ∧
     everyAttemptFollowedBySleep
       (get_erddap_data env url ds "tabledap" v c (m : Int)).2 = true ∧
     sleepsAreFixedTen
       (get_erddap_data env url ds "tabledap" v c (m : Int)).2 =
       true) := by
  obtain ⟨m1, rfl⟩ : ∃ m1, m = m1 + 1 := ⟨m - 1, by omega⟩
  have htn : ((m1 + 1 : Nat) : Int).toNat = m1 + 1 := by omega
  have hgrid := run_grid_allFail env url ds v c ((m1 + 1 : Nat) : Int)
    (by omega) (fun i _ => hg i)
  have htab := run_table_allFail env url ds v c ((m1 + 1 : Nat) : Int)
    (by omega) (fun i _ => ht i)
  rw [htn] at hgrid htab
  rw [hgrid, htab]
  refine ⟨⟨?_, ?_, ?_, ?_⟩, ?_, ?_, ?_, ?_⟩
  · exact numSleeps_full_allFail _ (grid_pre_setup env url ds v c) _
  · exact numAttempts_full_allFail _ (grid_pre_setup env url ds v c) _
  · exact followed_full_allFail _ (grid_pre_setup env url ds v c) m1
  · exact sleepsAreFixedTen_full_allFail _ (grid_pre_setup env url ds v c) _
  · exact numSleeps_full_allFail _ (table_pre_setup url ds v c) _
  · exact numAttempts_full_allFail _ (table_pre_setup url ds v c) _
  · exact followed_full_allFail _ (table_pre_setup url ds v c) m1
  · exact sleepsAreFixedTen_full_allFail _ (table_pre_setup url ds v c) _

/-- Witness for C8 with bound 3 and the always-raising sample
environment. -/
theorem C8_witness :
    (1 : Nat) ≤ 3 ∧
    (∀ i, env0.fetchGrid
      (gridFetchClient env0 "https://example.org/erddap" "ds1" none none)
      i = none) ∧
    (∀ i, env0.fetchTable
      (tableFetchClient "https://example.org/erddap" "ds1" none none)
      i = none) ∧
    ((numSleeps (get_erddap_data env0 "https://example.org/erddap" "ds1"
        "griddap" none none ((3 : Nat) : Int)).2 = 3 ∧
      numAttempts (get_erddap_data env0 "https://example.org/erddap" "ds1"
        "griddap" none none ((3 : Nat) : Int)).2 = 3 ∧
      everyAttemptFollowedBySleep
        (get_erddap_data env0 "https://example.org/erddap" "ds1" "griddap"
          none none ((3 : Nat) : Int)).2 = true ∧
      sleepsAreFixedTen (get_erddap_data env0 "https://example.org/erddap"
        "ds1" "griddap" none none ((3 : Nat) : Int)).2 = true) ∧
     (numSleeps (get_erddap_data env0 "https://example.org/erddap" "ds1"
        "tabledap" none none ((3 : Nat) : Int)).2 = 3 ∧
      numAttempts (get_erddap_data env0 "https://example.org/erddap" "ds1"
        "tabledap" none none ((3 : Nat) : Int)).2 = 3 ∧
      everyAttemptFollowedBySleep
        (get_erddap_data env0 "https://example.org/erddap" "ds1" "tabledap"
          none none ((3 : Nat) : Int)).2 = true ∧
      sleepsAreFixedTen (get_erddap_data env0 "https://example.org/erddap"
        "ds1" "tabledap" none none ((3 : Nat) : Int)).2 = true)) :=
  ⟨by decide, fun _ => rfl, fun _ => rfl,
   C8_sleep_after_every_failed_attempt env0 "https://example.org/erddap"
     "ds1" none none 3 (by decide) (fun _ => rfl) (fun _ => rfl)⟩

/-- C5: with constraints and variables supplied, the griddap path merges
the constraints into the client's existing constraint set (a key present
in the supplied mapping wins, every other key keeps its prior value) and
then re-runs griddap_initialize, while the tabledap path replaces the
client's constraint set outright, with no merge and no re-run; both
paths set the supplied variables as the active selection. -/
theorem C5_merge_vs_replace_constraints (env : Env) (e : Client)
    (vars : List String) (cons d : List (String × String)) (q : String) :
    (gridConfigure env e (some vars) (some cons)).2 =
      [Event.gridInit, Event.updateConstraints cons, Event.gridInit,
       Event.setVariables vars] ∧
    (gridConfigure env e (some vars) (some cons)).1 =
      { env.gridInit
          { env.gridInit e with
            constraints :=
              dictUpdate (env.gridInit e).constraints cons } with
        varNames := vars } ∧
    (gridConfigure env e (some vars) (some cons)).1.varNames = vars ∧
    (dictLookup (dictUpdate d cons) q =
      match dictLookup cons q with
      | some w => some w
      | none => dictLookup d q) ∧
    (tableConfigure e (some vars) (some cons)).1.constraints = cons ∧
    (tableConfigure e (some vars) (some cons)).1.varNames = vars ∧
    (tableConfigure e (some vars) (some cons)).2 =
      [Event.replaceConstraints cons, Event.setVariables vars] := by
  refine ⟨rfl, rfl, rfl, ?_, rfl, rfl, rfl⟩
  exact dictLookup_dictUpdate cons d q

/-- C1 as stated fails: at a valid protocol and retry bound 0 the
function propagates an unbound-local exception instead of returning the
absence value. -/
theorem C1_counterexample :
    (get_erddap_data env0 "https://example.org/erddap" "ds1" "griddap"
       none none 0).1 = RunOutcome.raise "UnboundLocalError" ∧
    ¬ ∃ r : Option XData,
      (get_erddap_data env0 "https://example.org/erddap" "ds1" "griddap"
         none none 0).1 = RunOutcome.ret r := by
  have hstop := retryLoop_stop
    (env0.fetchGrid
      (gridFetchClient env0 "https://example.org/erddap" "ds1" none none))
    0 0 none (by decide)
  have hrun : (get_erddap_data env0 "https://example.org/erddap" "ds1"
      "griddap" none none 0).1 = RunOutcome.raise "UnboundLocalError" := by
    rw [get_erddap_data_grid, hstop]
    rfl
  refine ⟨hrun, ?_⟩
  rintro ⟨r, hr⟩
  rw [hrun] at hr
  exact absurd hr (by simp)

/-- C1 amended: for every input whose retry bound is at least 1, the
function never raises to its caller - every run, the failing ones
included, ends in a normal return. -/
theorem C1_no_raise_when_bound_positive (env : Env) (url ds p : String)
    (v : Option (List String)) (c : Option (List (String × String)))
    (t : Int) (ht : 1 ≤ t) :
    ∃ r : Option XData,
      (get_erddap_data env url ds p v c t).1 = RunOutcome.ret r := by
  by_cases h1 : p = "griddap"
  · subst h1
    rcases retryLoop_zero_cases
        (env.fetchGrid (gridFetchClient env url ds v c)) t ht with
      ⟨_, hloop⟩ | ⟨k, d, _, _, _, hloop⟩
    · exact ⟨none, by rw [get_erddap_data_grid, hloop]; rfl⟩
    · exact ⟨some d, by rw [get_erddap_data_grid, hloop]; rfl⟩
  · by_cases h2 : p = "tabledap"
    · subst h2
      rcases retryLoop_zero_cases
          (env.fetchTable (tableFetchClient url ds v c)) t ht with
        ⟨_, hloop⟩ | ⟨k, d, _, _, _, hloop⟩
      · exact ⟨none, by rw [get_erddap_data_table, hloop]; rfl⟩
      · exact ⟨some d, by rw [get_erddap_data_table, hloop]; rfl⟩
    · exact ⟨none, by rw [get_erddap_data_invalid env url ds p v c t h1 h2]⟩

/-- Witness for the amended C1 at retry bound 5. -/
theorem C1_witness :
    (1 : Int) ≤ 5 ∧
    ∃ r : Option XData,
      (get_erddap_data env0 "https://example.org/erddap" "ds1" "griddap"
         none none 5).1 = RunOutcome.ret r :=
  ⟨by decide,
   C1_no_raise_when_bound_positive env0 "https://example.org/erddap" "ds1"
     "griddap" none none 5 (by decide)⟩

/-- C7 as stated fails: at a valid protocol and retry bound 0 the whole
attempt budget (zero attempts) is exhausted without success, yet the
function does not return the absence value - it raises an unbound-local
error. -/
theorem C7_counterexample :
    ¬ (((get_erddap_data env0 "https://example.org/erddap" "ds1" "griddap"
          none none 0).1 = RunOutcome.ret none) ↔
       (isInvalidProtocol "griddap" = true ∨
         exhaustedNoSuccess
           (get_erddap_data env0 "https://example.org/erddap" "ds1"
             "griddap" none none 0) 0)) := by
  have hstop := retryLoop_stop
    (env0.fetchGrid
      (gridFetchClient env0 "https://example.org/erddap" "ds1" none none))
    0 0 none (by decide)
  have hrun : get_erddap_data env0 "https://example.org/erddap" "ds1"
      "griddap" none none 0 =
      (RunOutcome.raise "UnboundLocalError",
       [Event.constructClient "https://example.org/erddap" "griddap" "csv",
        Event.setDatasetId "ds1", Event.gridInit]) := by
    rw [get_erddap_data_grid, hstop]
    rfl
  intro hiff
  have hrhs : isInvalidProtocol "griddap" = true ∨
      exhaustedNoSuccess
        (get_erddap_data env0 "https://example.org/erddap" "ds1" "griddap"
          none none 0) 0 := by
    right
    rw [hrun]
    exact ⟨rfl, rfl⟩
  have hnone := hiff.mpr hrhs
  rw [hrun] at hnone
  exact absurd hnone (by simp)

/-- C7 amended: for every input whose retry bound is at least 1, the
function returns None exactly when the protocol is invalid or the whole
attempt budget was used with no successful fetch; the final diagnostic
is printed exactly when None is returned; and a value that is returned
is exactly a fetched result, unchanged. -/
theorem C7_none_iff_invalid_or_exhausted (env : Env) (url ds p : String)
    (v : Option (List String)) (c : Option (List (String × String)))
    (t : Int) (ht : 1 ≤ t) :
    (((get_erddap_data env url ds p v c t).1 = RunOutcome.ret none) ↔
      (isInvalidProtocol p = true ∨
        exhaustedNoSuccess (get_erddap_data env url ds p v c t) t)) ∧
    ((Event.printFinalError ∈ (get_erddap_data env url ds p v c t).2) ↔
      (get_erddap_data env url ds p v c t).1 = RunOutcome.ret none) ∧
    (∀ d, (get_erddap_data env url ds p v c t).1 =
        RunOutcome.ret (some d) →
      (p = "griddap" ∧ ∃ k, k < t.toNat ∧
        env.fetchGrid (gridFetchClient env url ds v c) k = some d) ∨
      (p = "tabledap" ∧ ∃ k, k < t.toNat ∧
        env.fetchTable (tableFetchClient url ds v c) k = some d)) := by
  by_cases h1 : p = "griddap"
  · subst h1
    rcases retryLoop_zero_cases
        (env.fetchGrid (gridFetchClient env url ds v c)) t ht with
      ⟨hall, hloop⟩ | ⟨k, d0, hk, hks, hkf, hloop⟩
    · have hrun := run_grid_allFail env url ds v c t (by omega) hall
      rw [hrun]
      refine ⟨iff_of_true rfl (Or.inr ⟨?_, rfl⟩), ?_, ?_⟩
      · exact numAttempts_full_allFail _ (grid_pre_setup env url ds v c) _
      · exact iff_of_true (by simp) rfl
      · intro d hd
        exact absurd hd (by simp)
    · have hrun : get_erddap_data env url ds "griddap" v c t =
          (RunOutcome.ret (some d0),
           ([Event.constructClient url "griddap" "csv",
             Event.setDatasetId ds] ++
            (gridConfigure env (initialClient url ds "griddap") v c).2) ++
            (allFailTrace 0 k ++ [Event.fetchAttempt k])) := by
        rw [get_erddap_data_grid, hloop]
        rfl
      rw [hrun]
      refine ⟨iff_of_false (by simp) ?_, iff_of_false ?_ (by simp), ?_⟩
      · rintro (hbad | ⟨_, hbad⟩)
        · exact absurd hbad (by decide)
        · exact absurd hbad (by simp [isSuccess])
      · intro hmem
        rcases List.mem_append.mp hmem with h | h
        · exact printFinalError_not_mem_of_setup _
            (grid_pre_setup env url ds v c) h
        · rcases List.mem_append.mp h with h2 | h2
          · exact printFinalError_not_mem_allFailTrace k 0 h2
          · simp at h2
      · intro d hd
        have hd0 : d0 = d := by simpa using hd
        subst hd0
        exact Or.inl ⟨rfl, k, hk, hks⟩
  · by_cases h2 : p = "tabledap"
    · subst h2
      rcases retryLoop_zero_cases
          (env.fetchTable (tableFetchClient url ds v c)) t ht with
        ⟨hall, hloop⟩ | ⟨k, d0, hk, hks, hkf, hloop⟩
      · have hrun := run_table_allFail env url ds v c t (by omega) hall
        rw [hrun]
        refine ⟨iff_of_true rfl (Or.inr ⟨?_, rfl⟩), ?_, ?_⟩
        · exact numAttempts_full_allFail _ (table_pre_setup url ds v c) _
        · exact iff_of_true (by simp) rfl
        · intro d hd
          exact absurd hd (by simp)
      · have hrun : get_erddap_data env url ds "tabledap" v c t =
            (RunOutcome.ret (some d0),
             ([Event.constructClient url "tabledap" "csv",
               Event.setDatasetId ds] ++
              (tableConfigure (initialClient url ds "tabledap") v c).2) ++
              (allFailTrace 0 k ++ [Event.fetchAttempt k])) := by
          rw [get_erddap_data_table, hloop]
          rfl
        rw [hrun]
        refine ⟨iff_of_false (by simp) ?_, iff_of_false ?_ (by simp), ?_⟩
        · rintro (hbad | ⟨_, hbad⟩)
          · exact absurd hbad (by decide)
          · exact absurd hbad (by simp [isSuccess])
        · intro hmem
          rcases List.mem_append.mp hmem with h | h
          · exact printFinalError_not_mem_of_setup _
              (table_pre_setup url ds v c) h
          · rcases List.mem_append.mp h with h2 | h2
            · exact printFinalError_not_mem_allFailTrace k 0 h2
            · simp at h2
        · intro d hd
          have hd0 : d0 = d := by simpa using hd
          subst hd0
          exact Or.inr ⟨rfl, k, hk, hks⟩
    · rw [get_erddap_data_invalid env url ds p v c t h1 h2]
      have hinv : isInvalidProtocol p = true := by
        simp [isInvalidProtocol, h1, h2]
      refine ⟨iff_of_true rfl (Or.inl hinv), iff_of_true (by simp) rfl, ?_⟩
      intro d hd
      exact absurd hd (by simp)

/-- Witness for the amended C7 at retry bound 5 with the always-raising
sample environment. -/
theorem C7_witness :
    (1 : Int) ≤ 5 ∧
    ((((get_erddap_data env0 "https://example.org/erddap" "ds1" "griddap"
         none none 5).1 = RunOutcome.ret none) ↔
       (isInvalidProtocol "griddap" = true ∨
         exhaustedNoSuccess
           (get_erddap_data env0 "https://example.org/erddap" "ds1"
             "griddap" none none 5) 5)) ∧
     ((Event.printFinalError ∈
        (get_erddap_data env0 "https://example.org/erddap" "ds1" "griddap"
          none none 5).2) ↔
       (get_erddap_data env0 "https://example.org/erddap" "ds1" "griddap"
         none none 5).1 = RunOutcome.ret none) ∧
     (∀ d, (get_erddap_data env0 "https://example.org/erddap" "ds1"
         "griddap" none none 5).1 = RunOutcome.ret (some d) →
       ("griddap" = "griddap" ∧ ∃ k, k < (5 : Int).toNat ∧
         env0.fetchGrid
           (gridFetchClient env0 "https://example.org/erddap" "ds1"
             none none) k = some d) ∨
       ("griddap" = "tabledap" ∧ ∃ k, k < (5 : Int).toNat ∧
         env0.fetchTable
           (tableFetchClient "https://example.org/erddap" "ds1"
             none none) k = some d))) :=
  ⟨by decide,
   C7_none_iff_invalid_or_exhausted env0 "https://example.org/erddap"
     "ds1" "griddap" none none 5 (by decide)⟩

end ErddapAccess
